import Mathlib

/-
Shallow embedding of the singer-tap-wordpress-reviews source
(tap_wordpress_reviews/wordpress_review.py, wordpress_reviews_list.py,
wordpress_reviews.py) and proofs about the claims of the specification.

Modelling conventions:
* HTML documents are trees; BeautifulSoup find / find_all searches the
  strict descendants of the node in pre-order, class matching tests
  membership in the multi-valued class attribute, and a found Tag is
  always truthy (bs4 defines Tag truthiness as constantly true), so the
  source pattern `if not tag:` is modelled as an Option.isNone test.
* Python exceptions are modelled with Except; functions of the source
  that cannot raise are total.
* HTTP fetches are abstracted by passing the fetched page content (or,
  for the cursor, the per-page parse results) as an explicit parameter;
  all claims below quantify over environments in which each fetch
  succeeds, matching the scenarios the claims describe.
-/

/-- Python exception kinds raised by the field extractor. -/
inductive PyErr where
  | attributeError
  | typeError
  | indexError
  | valueError
deriving Repr, DecidableEq

/-- An HTML node: raw text, or an element with a tag name, the (multi-valued)
class attribute, the remaining attributes, and child nodes. -/
inductive Html where
  | text (s : String)
  | elem (tag : String) (classes : List String) (attrs : List (String × String))
      (children : List Html)
deriving Repr

/-- Does this node match tag name t and carry class c (bs4 class_ matching)? -/
def Html.matches (h : Html) (t c : String) : Bool :=
  match h with
  | .text _ => false
  | .elem tag cs _ _ => tag = t && cs.contains c

/-- Does this node match tag name t (find with a name only)? -/
def Html.matchesTag (h : Html) (t : String) : Bool :=
  match h with
  | .text _ => false
  | .elem tag _ _ _ => tag = t

/-- Attribute lookup, Tag.get(key): none when the attribute is absent. -/
def Html.attr? (h : Html) (k : String) : Option String :=
  match h with
  | .text _ => none
  | .elem _ _ attrs _ => attrs.lookup k

mutual
/-- All strict descendants of a node, in document (pre-)order. -/
def Html.descendants : Html → List Html
  | .text _ => []
  | .elem _ _ _ ch => Html.forestNodes ch
/-- All nodes of a forest, each followed by its descendants, in order. -/
def Html.forestNodes : List Html → List Html
  | [] => []
  | h :: hs => h :: (Html.descendants h ++ Html.forestNodes hs)
end

/-- Tag.find_all(name, class_): matching descendants in document order. -/
def Html.findAll (h : Html) (t c : String) : List Html :=
  h.descendants.filter (fun n => n.matches t c)

/-- Tag.find(name, class_): first matching descendant, none when absent. -/
def Html.find (h : Html) (t c : String) : Option Html :=
  (h.findAll t c).head?

/-- Tag.find_all(name): matching descendants by tag name only. -/
def Html.findAllTag (h : Html) (t : String) : List Html :=
  h.descendants.filter (fun n => n.matchesTag t)

/-- Tag.find(name): first descendant with the given tag name. -/
def Html.findTag (h : Html) (t : String) : Option Html :=
  (h.findAllTag t).head?

mutual
/-- Tag.get_text(): concatenation of all text descendants. -/
def Html.getText : Html → String
  | .text s => s
  | .elem _ _ _ ch => Html.getTextList ch
/-- get_text over a forest. -/
def Html.getTextList : List Html → String
  | [] => ""
  | h :: hs => Html.getText h ++ Html.getTextList hs
end

/-- A parsed naive datetime, as produced by datetime.strptime. -/
structure PyDateTime where
  year : Nat
  month : Nat
  day : Nat
  hour : Nat
  minute : Nat
deriving Repr, DecidableEq

/-- Full month names with their numbers, lowercased (strptime matches month
names case-insensitively). -/
def monthNames : List (String × Nat) :=
  [("january", 1), ("february", 2), ("march", 3), ("april", 4), ("may", 5),
   ("june", 6), ("july", 7), ("august", 8), ("september", 9), ("october", 10),
   ("november", 11), ("december", 12)]

/-- Value of a digit string. -/
def digitsVal (ds : List Char) : Nat :=
  ds.foldl (fun a c => a * 10 + (c.toNat - 48)) 0

/-- Split a leading run of digits off a character list. -/
def takeDigits (cs : List Char) : List Char × List Char :=
  (cs.takeWhile Char.isDigit, cs.dropWhile Char.isDigit)

/-- A whitespace character in a strptime format matches one or more
whitespace characters of the input. -/
def skipWs1 (cs : List Char) : Option (List Char) :=
  match cs with
  | c :: rest =>
    if c.isWhitespace then some (rest.dropWhile Char.isWhitespace) else none
  | [] => none

/-- Require one literal character. -/
def expectChar (c : Char) (cs : List Char) : Option (List Char) :=
  match cs with
  | x :: rest => if x = c then some rest else none
  | [] => none

/-- Require a literal character sequence. -/
def expectList (l : List Char) (cs : List Char) : Option (List Char) :=
  if cs.take l.length = l then some (cs.drop l.length) else none

/-- Match a full month name (input already lowercased); no month name is a
prefix of another, so at most one matches. -/
def matchMonth (cs : List Char) : Option (Nat × List Char) :=
  (monthNames.filterMap fun nm =>
    if cs.take nm.1.toList.length = nm.1.toList then
      some (nm.2, cs.drop nm.1.toList.length)
    else none).head?

/-- ASCII lowercasing of one character (str.lower on the ASCII range these
pages use). -/
def lowerChar (c : Char) : Char :=
  if 65 ≤ c.toNat ∧ c.toNat ≤ 90 then Char.ofNat (c.toNat + 32) else c

/-- Match the %p directive: am or pm (input already lowercased); true = pm. -/
def matchAmPm (cs : List Char) : Option (Bool × List Char) :=
  if cs.take 2 = ['a', 'm'] then some (false, cs.drop 2)
  else if cs.take 2 = ['p', 'm'] then some (true, cs.drop 2)
  else none

/-- Is the year a leap year (Gregorian)? -/
def isLeap (y : Nat) : Bool :=
  y % 4 = 0 && (y % 100 != 0 || y % 400 = 0)

/-- Number of days in the given month, as validated by datetime(). -/
def daysInMonth (y m : Nat) : Nat :=
  if m = 2 then (if isLeap y then 29 else 28)
  else if m = 4 || m = 6 || m = 9 || m = 11 then 30
  else 31

/-- A one-or-two-digit numeric strptime directive with a value range, e.g.
%d (1-31), %I (1-12), %M (0-59): a run of at most two digits whose value
lies in the range. -/
def parseNum2 (lo hi : Nat) (cs : List Char) : Option (Nat × List Char) :=
  let ds := (takeDigits cs).1
  if (ds.length = 1 ∨ ds.length = 2) ∧ lo ≤ digitsVal ds ∧ digitsVal ds ≤ hi
  then some (digitsVal ds, (takeDigits cs).2)
  else none

/-- The %Y directive: exactly four digits (year 0 is rejected later by the
datetime constructor, MINYEAR = 1). -/
def parseYear4 (cs : List Char) : Option (Nat × List Char) :=
  let ds := (takeDigits cs).1
  if ds.length = 4 ∧ 1 ≤ digitsVal ds
  then some (digitsVal ds, (takeDigits cs).2)
  else none

/-- Combine the %I hour and the %p am/pm flag into a 24-hour value, as
strptime does. -/
def to24Hour (hr12 : Nat) (isPm : Bool) : Nat :=
  if isPm then (if hr12 = 12 then 12 else hr12 + 12)
  else (if hr12 = 12 then 0 else hr12)

/-- The "%B %d, %Y at " half of the format: month name, whitespace, day,
",", whitespace, four-digit year, whitespace, "at", whitespace. Returns
(month, (day, (year, rest))). -/
def parseDatePart (cs : List Char) : Option (Nat × Nat × Nat × List Char) :=
  (matchMonth cs).bind fun ms =>
  (skipWs1 ms.2).bind fun cs2 =>
  (parseNum2 1 31 cs2).bind fun ds =>
  (expectChar ',' ds.2).bind fun cs4 =>
  (skipWs1 cs4).bind fun cs5 =>
  (parseYear4 cs5).bind fun ys =>
  (skipWs1 ys.2).bind fun cs7 =>
  (expectList ['a', 't'] cs7).bind fun cs8 =>
  (skipWs1 cs8).map fun cs9 => (ms.1, ds.1, ys.1, cs9)

/-- The "%I:%M %p" half of the format: hour 1-12, ":", minute 0-59,
whitespace, am or pm, end of input. Returns (hour12, minute, isPm). -/
def parseTimePart (cs : List Char) : Option (Nat × Nat × Bool) :=
  (parseNum2 1 12 cs).bind fun hs =>
  (expectChar ':' hs.2).bind fun cs11 =>
  (parseNum2 0 59 cs11).bind fun mins =>
  (skipWs1 mins.2).bind fun cs13 =>
  (matchAmPm cs13).bind fun ps =>
  if ps.2.isEmpty then some (hs.1, mins.1, ps.1) else none

/-- datetime.strptime(s, "%B %d, %Y at %I:%M %p"), returning none instead of
raising ValueError: month name, day 1-31 (at most two digits), ", ", a
four-digit year, " at ", hour 1-12, ":", minute 0-59 (at most two digits),
" ", am or pm, end of input; the day is validated against the month (the
datetime constructor) and the 12-hour value is converted to 24-hour form. -/
def strptimeWP (s : String) : Option PyDateTime :=
  (parseDatePart (s.toList.map lowerChar)).bind fun md =>
  (parseTimePart md.2.2.2).bind fun tm =>
  if md.2.1 ≤ daysInMonth md.2.2.1 md.1
  then some ⟨md.2.2.1, md.1, md.2.1, to24Hour tm.1 tm.2.2, tm.2.1⟩
  else none

/-- Zero-pad to two digits. -/
def pad2 (n : Nat) : String :=
  if n < 10 then "0" ++ toString n else toString n

/-- Zero-pad to four digits. -/
def pad4 (n : Nat) : String :=
  if n < 10 then "000" ++ toString n
  else if n < 100 then "00" ++ toString n
  else if n < 1000 then "0" ++ toString n
  else toString n

/-- naive datetime.astimezone(timezone.utc).isoformat(): the naive value is
interpreted in the local timezone of the process, modelled here as UTC. -/
def astimezoneUtcIso (dt : PyDateTime) : String :=
  pad4 dt.year ++ "-" ++ pad2 dt.month ++ "-" ++ pad2 dt.day ++ "T" ++
    pad2 dt.hour ++ ":" ++ pad2 dt.minute ++ ":00+00:00"

/-- naive datetime.isoformat(): no UTC offset suffix. -/
def isoformatNaive (dt : PyDateTime) : String :=
  pad4 dt.year ++ "-" ++ pad2 dt.month ++ "-" ++ pad2 dt.day ++ "T" ++
    pad2 dt.hour ++ ":" ++ pad2 dt.minute ++ ":00"

/-- int(s) on a general string: optional surrounding whitespace, optional
sign, a nonempty digit run; none models ValueError. (Underscore digit
grouping and non-ASCII decimals are not used by these pages.) -/
def pyIntParse (s : String) : Option Int :=
  let ds := (s.toList.dropWhile Char.isWhitespace).reverse.dropWhile
    Char.isWhitespace |>.reverse
  let core : List Char → Option Nat := fun cs =>
    if cs ≠ [] ∧ cs.all Char.isDigit then some (digitsVal cs) else none
  match ds with
  | '-' :: rest => (core rest).map (fun n => -(n : Int))
  | '+' :: rest => (core rest).map (fun n => (n : Int))
  | rest => (core rest).map (fun n => (n : Int))

/-- JSON-like Python values appearing in the serialized review record. -/
inductive JValue where
  | null
  | str (s : String)
  | int (n : Int)
  | list (l : List JValue)
  | dict (kvs : List (String × JValue))
deriving Repr

/-- A Python dict with string keys, in insertion order. -/
abbrev PyDict := List (String × JValue)

/-- String.join of a list with newline separators, "\n".join(l). -/
def joinNl (l : List String) : String :=
  String.intercalate "\n" l

/-- text.partition(" ")[0]: the part of the string before the first space
(the whole string when it has no space). -/
def beforeFirstSpace (s : String) : String :=
  String.mk (s.toList.takeWhile (fun c => c ≠ ' '))

/-- WordpressReview._find_title: text of the first h1.page-title, none when
absent. -/
def find_title (soup : Html) : Option String :=
  match soup.find "h1" "page-title" with
  | none => none
  | some t => some t.getText

/-- WordpressReview._find_date: the title attribute of the first
a.bbp-topic-permalink (default "" when the attribute is absent), parsed with
strptime; a parse failure is caught and yields none (no exception); on
success the naive datetime is converted to a UTC ISO-8601 string. -/
def find_date (soup : Html) : Option String :=
  match soup.find "a" "bbp-topic-permalink" with
  | none => none
  | some a =>
    match strptimeWP ((a.attr? "title").getD "") with
    | none => none
    | some dt => some (astimezoneUtcIso dt)

/-- WordpressReview._find_tags: the texts of all anchors inside the first
ul.topic-tags; none when the tag list is absent. -/
def find_tags (soup : Html) : Option (List String) :=
  match soup.find "ul" "topic-tags" with
  | none => none
  | some ul => some ((ul.findAllTag "a").map Html.getText)

/-- WordpressReview._find_rating: int(rating_string[0]) on the title
attribute of the first div.wporg-ratings; none when the widget is absent; a
missing title attribute is a TypeError (None subscript), an empty title an
IndexError, a non-digit first character a ValueError. -/
def find_rating (soup : Html) : Except PyErr (Option Int) :=
  match soup.find "div" "wporg-ratings" with
  | none => .ok none
  | some w =>
    match w.attr? "title" with
    | none => .error .typeError
    | some s =>
      match s.toList with
      | [] => .error .indexError
      | c :: _ =>
        if c.isDigit then .ok (some ((c.toNat : Int) - 48))
        else .error .valueError

/-- WordpressReview._find_author: text of the first span.bbp-author-name. -/
def find_author (soup : Html) : Option String :=
  match soup.find "span" "bbp-author-name" with
  | none => none
  | some a => some a.getText

/-- WordpressReview._find_text: find_all("p") is called on the result of
find("div", class_="bbp-topic-content") without a None check, so a missing
topic-content block raises AttributeError; with the block present, no
paragraphs yield none and otherwise the paragraph texts joined by
newlines. -/
def find_text (soup : Html) : Except PyErr (Option String) :=
  match soup.find "div" "bbp-topic-content" with
  | none => .error .attributeError
  | some d =>
    let ps := d.findAllTag "p"
    if ps.isEmpty then .ok none
    else .ok (some (joinNl (ps.map Html.getText)))

/-- WordpressReview._find_replies_num: int of the first space-separated
token of the text of li.reply-count; none when absent; a non-numeric token
raises ValueError. -/
def find_replies_num (soup : Html) : Except PyErr (Option Int) :=
  match soup.find "li" "reply-count" with
  | none => .ok none
  | some li =>
    match pyIntParse (beforeFirstSpace li.getText) with
    | none => .error .valueError
    | some n => .ok (some n)

/-- WordpressReview._find_participants_num: like _find_replies_num on
li.voice-count. -/
def find_participants_num (soup : Html) : Except PyErr (Option Int) :=
  match soup.find "li" "voice-count" with
  | none => .ok none
  | some li =>
    match pyIntParse (beforeFirstSpace li.getText) with
    | none => .error .valueError
    | some n => .ok (some n)

/-- The per-reply dict built by the loop body of
WordpressReview._find_replies: the author key when span.bbp-author-name is
present, then the comment key when div.bbp-reply-content is present (its
paragraph texts joined by newlines), then the date key when
p.bbp-reply-post-date and an anchor inside it are present - with value null
when the title attribute of that anchor does not parse as a date, and the
naive isoformat string when it does. -/
def buildComment (reply : Html) : PyDict :=
  let c1 : PyDict :=
    match reply.find "span" "bbp-author-name" with
    | none => []
    | some a => [("author", JValue.str a.getText)]
  let c2 : PyDict :=
    match reply.find "div" "bbp-reply-content" with
    | none => c1
    | some d =>
      c1 ++ [("comment", JValue.str (joinNl ((d.findAllTag "p").map Html.getText)))]
  match reply.find "p" "bbp-reply-post-date" with
  | none => c2
  | some pd =>
    match pd.findTag "a" with
    | none => c2
    | some a =>
      match strptimeWP ((a.attr? "title").getD "") with
      | none => c2 ++ [("date", JValue.null)]
      | some dt => c2 ++ [("date", JValue.str (isoformatNaive dt))]

/-- WordpressReview._find_replies: none when there is no div.reply at all,
otherwise the per-reply dicts in document order. -/
def find_replies (soup : Html) : Option (List PyDict) :=
  let replies := soup.findAll "div" "reply"
  if replies.isEmpty then none
  else some (replies.map buildComment)

/-- WordpressReview._find_support: text of the first span.bbp-author-name
inside the first div.by-plugin-support-rep; none when either is absent. -/
def find_support (soup : Html) : Option String :=
  match soup.find "div" "by-plugin-support-rep" with
  | none => none
  | some d =>
    match d.find "span" "bbp-author-name" with
    | none => none
    | some a => some a.getText

/-- WordpressReview._find_support_comment: paragraph texts of the first
div.bbp-reply-content inside the first div.by-plugin-support-rep, joined by
newlines; none when either block is absent. -/
def find_support_comment (soup : Html) : Option String :=
  match soup.find "div" "by-plugin-support-rep" with
  | none => none
  | some d =>
    match d.find "div" "bbp-reply-content" with
    | none => none
    | some blk => some (joinNl ((blk.findAllTag "p").map Html.getText))

/-- Scan for the first "://" scheme separator and return the characters
after it, none when there is no scheme. -/
def splitScheme : List Char → Option (List Char)
  | [] => none
  | c :: rest =>
    if c = ':' ∧ rest.take 2 = ['/', '/'] then some (rest.drop 2)
    else splitScheme rest

/-- urllib.parse.urlparse(url).path for the http(s) URLs this tap handles:
drop any fragment and query, then, when a scheme separator is present, drop
the scheme and network location; the path keeps its leading slash. -/
def parse_url (url : String) : String :=
  let cs := (url.toList.takeWhile (fun c => c ≠ '#')).takeWhile (fun c => c ≠ '?')
  match splitScheme cs with
  | none => String.mk cs
  | some afterScheme => String.mk (afterScheme.dropWhile (fun c => c ≠ '/'))

/-- The WordpressReview object. Attribute loaded is only ever assigned in
load(), so it is an Option (none models the attribute not existing yet).
In the source tags and comments carry list defaults while the extractor can
also store Python None in them, hence the Option-of-list types. -/
structure WordpressReview where
  path : String
  loaded : Option Bool
  title : Option String
  date : Option String
  tags : Option (List String)
  rating : Option Int
  author : Option String
  text : Option String
  replies : Option Int
  participants : Option Int
  comments : Option (List PyDict)
  support : Option String
  support_comment : Option String

/-- WordpressReview._parse: runs every field extractor on the soup and
stores the results; the fallible extractors run in source order (rating
before text before the two counters), so the first exception wins. -/
def parseReview (r : WordpressReview) (soup : Html) : Except PyErr WordpressReview :=
  (find_rating soup).bind fun rating =>
  (find_text soup).bind fun text =>
  (find_replies_num soup).bind fun replies =>
  (find_participants_num soup).bind fun participants =>
  .ok { r with
    title := find_title soup
    date := find_date soup
    tags := find_tags soup
    rating := rating
    author := find_author soup
    text := text
    replies := replies
    participants := participants
    comments := find_replies soup
    support := find_support soup
    support_comment := find_support_comment soup }

/-- WordpressReview.load on a successful (status 200) fetch whose body is
the given soup: parse, then set loaded (a non-200 status raises
ConnectionError instead and is outside the scope of the claims below). -/
def loadReview (r : WordpressReview) (soup : Html) : Except PyErr WordpressReview :=
  (parseReview r soup).map fun r1 => { r1 with loaded := some true }

/-- WordpressReview.__init__(url, autoload): store the parsed path, then,
when autoload is set, load the review (fetching the given page), and only
afterwards assign the field defaults - so the defaults overwrite whatever
load extracted. -/
def initWordpressReview (url : String) (autoload : Bool) (page : Html) :
    Except PyErr WordpressReview :=
  let r0 : WordpressReview :=
    { path := parse_url url, loaded := none, title := none, date := none,
      tags := none, rating := none, author := none, text := none,
      replies := none, participants := none, comments := none,
      support := none, support_comment := none }
  (if autoload then loadReview r0 page else .ok r0).map fun r1 =>
    { r1 with
      title := none
      date := none
      tags := some []
      rating := none
      author := none
      text := none
      replies := none
      participants := none
      comments := some []
      support := none
      support_comment := none }

/-- Serialization of one optional scalar field. -/
def jOptStr (o : Option String) : JValue :=
  match o with
  | none => JValue.null
  | some s => JValue.str s

/-- Serialization of one optional integer field. -/
def jOptInt (o : Option Int) : JValue :=
  match o with
  | none => JValue.null
  | some n => JValue.int n

/-- Serialization of the tags field (Python passes the list through). -/
def jTags (o : Option (List String)) : JValue :=
  match o with
  | none => JValue.null
  | some l => JValue.list (l.map JValue.str)

/-- Serialization of the comments field (a list of per-reply dicts). -/
def jComments (o : Option (List PyDict)) : JValue :=
  match o with
  | none => JValue.null
  | some l => JValue.list (l.map JValue.dict)

/-- WordpressReview.to_dict: the flat record emitted for a review. -/
def to_dict (r : WordpressReview) : PyDict :=
  [("path", JValue.str r.path),
   ("title", jOptStr r.title),
   ("date", jOptStr r.date),
   ("tags", jTags r.tags),
   ("rating", jOptInt r.rating),
   ("author", jOptStr r.author),
   ("text", jOptStr r.text),
   ("replies", jOptInt r.replies),
   ("participants", jOptInt r.participants),
   ("comments", jComments r.comments),
   ("support", jOptStr r.support),
   ("support_comment", jOptStr r.support_comment)]

/-- Python list indexing l[i]: a negative index counts from the end; none
models IndexError. -/
def pyGet {α : Type} (l : List α) (i : Int) : Option α :=
  let j : Int := if i < 0 then (l.length : Int) + i else i
  if 0 ≤ j then l[j.toNat]? else none

/-- WordpressReview.tag(number): the 1-based nth tag; none when tags is
falsy (None or empty) or the index exceeds the tag count; indexes below 1
reach the Python negative-index branch of the subscript. -/
def wpTag (r : WordpressReview) (number : Int) : Except PyErr (Option String) :=
  match r.tags with
  | none => .ok none
  | some l =>
    if l.isEmpty then .ok none
    else if number > l.length then .ok none
    else
      match pyGet l (number - 1) with
      | none => .error .indexError
      | some t => .ok (some t)

/-- WORDPRESS_REVIEWS_PER_PAGE. -/
def WORDPRESS_REVIEWS_PER_PAGE : Nat := 30

/-- Exceptions raised by the cursor: StopIteration on exhaustion; a Python
IndexError would arise if the in-page subscript fell out of range. -/
inductive PyExn where
  | stopIteration
  | indexError
deriving Repr, DecidableEq

/-- The mutable state of a WordpressReviewsList: the plugin name, the
1-based global review counter review_no, and the page cache page_html
(page number to parsed review list). The reviews / more / loaded
attributes of the source object are byproducts of load() that the cursor
logic never reads back. -/
structure ListState (α : Type) where
  plugin : String
  review_no : Nat
  page_html : List (Nat × List α)

/-- WordpressReviewsList.__init__(plugin). -/
def initListState {α : Type} (plugin : String) : ListState α :=
  { plugin := plugin, review_no := 1, page_html := [] }

/-- math.ceil(number / WORDPRESS_REVIEWS_PER_PAGE) on natural numbers. -/
def ceilPage (number : Nat) : Nat :=
  (number + (WORDPRESS_REVIEWS_PER_PAGE - 1)) / WORDPRESS_REVIEWS_PER_PAGE

/-- WordpressReviewsList._wp_review(number). The environment parameter
site gives, for each page number, the review list that load(page) parses
out of the fetched listing page (every fetch in scope of the claims
succeeds); loadFn models the WordpressReview.load() call performed on the
selected entity before it is returned. Steps, exactly as in the source:
compute the page as ceil(number / 30); fetch and cache the page when it is
not cached; set review_no = number - page * 30, adding 30 - len(page) when
the cached page is shorter than 30; a positive review_no means no such
review exists, raising StopIteration; otherwise return the entity at
Python index review_no - 1 (counting from the end of the page list). -/
def wpReview {α : Type} (site : Nat → List α) (loadFn : α → α)
    (st : ListState α) (number : Nat) : Except PyExn α × ListState α :=
  let page := ceilPage number
  let fetched :=
    match st.page_html.lookup page with
    | some l => (l, st)
    | none =>
      let l := site page
      (l, { st with page_html := (page, l) :: st.page_html })
  let cached := fetched.1
  let st1 := fetched.2
  let nominal : Int := (number : Int) - (page : Int) * WORDPRESS_REVIEWS_PER_PAGE
  let review_no : Int :=
    if cached.length < WORDPRESS_REVIEWS_PER_PAGE
    then nominal + ((WORDPRESS_REVIEWS_PER_PAGE : Int) - (cached.length : Int))
    else nominal
  if 0 < review_no then (.error .stopIteration, st1)
  else
    match pyGet cached (review_no - 1) with
    | none => (.error .indexError, st1)
    | some r => (.ok (loadFn r), st1)

/-- WordpressReviewsList.__next__: read review_no, increment it, then run
_wp_review on the value read - the counter advances even when _wp_review
raises. -/
def nextReview {α : Type} (site : Nat → List α) (loadFn : α → α)
    (st : ListState α) : Except PyExn α × ListState α :=
  let number := st.review_no
  let st1 := { st with review_no := st.review_no + 1 }
  wpReview site loadFn st1 number

/-- State of the cursor after n next() calls. -/
def iterateCursor {α : Type} (site : Nat → List α) (loadFn : α → α)
    (st : ListState α) : Nat → ListState α
  | 0 => st
  | n + 1 => (nextReview site loadFn (iterateCursor site loadFn st n)).2

/-- Result of the (n+1)-st next() call (0-based call index n). -/
def resultAt {α : Type} (site : Nat → List α) (loadFn : α → α)
    (st : ListState α) (n : Nat) : Except PyExn α :=
  (nextReview site loadFn (iterateCursor site loadFn st n)).1

/-- A wordpress.org site serving the finite review list L in pages of 30:
page p holds reviews 30(p-1) .. 30p-1, so every page past the end is
empty. -/
def paginate {α : Type} (L : List α) (page : Nat) : List α :=
  (L.drop ((page - 1) * WORDPRESS_REVIEWS_PER_PAGE)).take WORDPRESS_REVIEWS_PER_PAGE

/-- Every cached page holds exactly what the site serves for it. -/
def cacheConsistent {α : Type} (site : Nat → List α) (st : ListState α) : Prop :=
  ∀ p l, st.page_html.lookup p = some l → l = site p

/-- Outcome of the inner per-plugin loop of WordpressReviews.reviews(). -/
inductive InnerOutcome where
  | quotaDone
  | exhausted
  | raised (e : PyExn)
deriving Repr, DecidableEq

/-- The inner loop, for _ in range(0, number): pull one review per round;
StopIteration from next() ends the loop with outcome exhausted (it is
caught by the aggregator); any other exception ends it with outcome
raised. Returns the reviews pulled, the final cursor state and the
outcome. -/
def pullQuota {α : Type} (site : Nat → List α) (loadFn : α → α)
    (st : ListState α) : Nat → List α × ListState α × InnerOutcome
  | 0 => ([], st, .quotaDone)
  | n + 1 =>
    match nextReview site loadFn st with
    | (.ok r, st1) =>
      let rec2 := pullQuota site loadFn st1 n
      (r :: rec2.1, rec2.2)
    | (.error .stopIteration, st1) => ([], st1, .exhausted)
    | (.error e, st1) => ([], st1, .raised e)

/-- Python dict assignment d[k] = v on an association list. -/
def updateAssoc {α : Type} (k : String) (v : ListState α) :
    List (String × ListState α) → List (String × ListState α)
  | [] => [(k, v)]
  | kv :: rest => if kv.1 = k then (k, v) :: rest else kv :: updateAssoc k v rest

/-- The WordpressReviews aggregator: the requested plugins in request
order, the per-plugin quota number, and the reviews_lists dict mapping
each plugin to its cursor state. -/
structure WordpressReviewsState (α : Type) where
  plugins : List String
  number : Nat
  reviews_lists : List (String × ListState α)

/-- WordpressReviews.__init__(plugins, number): a fresh cursor per
plugin. (A single plugin string is wrapped into a one-element list before
this point.) -/
def initWordpressReviews {α : Type} (plugins : List String) (number : Nat) :
    WordpressReviewsState α :=
  { plugins := plugins, number := number,
    reviews_lists := plugins.foldl (fun d p => updateAssoc p (initListState p) d) [] }

/-- The body of WordpressReviews.reviews(): for each plugin in request
order pull up to number reviews, tagging each with the plugin name; the
except StopIteration: break clause sits in the outer for loop, so an
exhausted plugin ends the whole generator, it does not continue with the
remaining plugins. The second component records an escaping non-caught
exception (never produced in the scenarios below). -/
def reviewsLoop {α : Type} (sites : String → Nat → List α) (loadFn : α → α)
    (number : Nat) : List String → List (String × ListState α) →
    List (String × α) × Option PyExn
  | [], _ => ([], none)
  | p :: rest, dict =>
    let st := (dict.lookup p).getD (initListState p)
    let pulled := pullQuota (sites p) loadFn st number
    let recs := pulled.1.map (fun r => (p, r))
    let dict1 := updateAssoc p pulled.2.1 dict
    match pulled.2.2 with
    | .exhausted => (recs, none)
    | .raised e => (recs, some e)
    | .quotaDone =>
      let more := reviewsLoop sites loadFn number rest dict1
      (recs ++ more.1, more.2)

/-- WordpressReviews.reviews() from a fresh aggregator: the emitted
(plugin, review) records in order (each record is the to_dict of the
loaded review plus the plugin tag; the pair keeps the tag and the loaded
entity). -/
def reviewsRun {α : Type} (wp : WordpressReviewsState α)
    (sites : String → Nat → List α) (loadFn : α → α) :
    List (String × α) × Option PyExn :=
  reviewsLoop sites loadFn wp.number wp.plugins wp.reviews_lists

/-- The review list _wp_review consults for global index number: the cached
page when present, the freshly fetched one otherwise. -/
def pageFor {α : Type} (site : Nat → List α) (st : ListState α) (number : Nat) : List α :=
  match st.page_html.lookup (ceilPage number) with
  | some l => l
  | none => site (ceilPage number)

/-- The adjusted in-page offset review_no computed by _wp_review, as a
function of the consulted page length and the global index. -/
def reviewNoFor (pageLen number : Nat) : Int :=
  let nominal : Int := (number : Int) - (ceilPage number : Int) * WORDPRESS_REVIEWS_PER_PAGE
  if pageLen < WORDPRESS_REVIEWS_PER_PAGE
  then nominal + ((WORDPRESS_REVIEWS_PER_PAGE : Int) - (pageLen : Int))
  else nominal

/-- The value _wp_review yields, as a function of the consulted page. -/
def wpReviewResult {α : Type} (l : List α) (loadFn : α → α) (number : Nat) :
    Except PyExn α :=
  if 0 < reviewNoFor l.length number then .error .stopIteration
  else
    match pyGet l (reviewNoFor l.length number - 1) with
    | none => .error .indexError
    | some r => .ok (loadFn r)

theorem wpReview_fst {α : Type} (site : Nat → List α) (loadFn : α → α)
    (st : ListState α) (n : Nat) :
    (wpReview site loadFn st n).1 = wpReviewResult (pageFor site st n) loadFn n := by
  unfold wpReview wpReviewResult reviewNoFor pageFor
  cases hl : st.page_html.lookup (ceilPage n) <;>
    simp only [hl] <;>
    (repeat' split) <;> rfl

theorem wpReview_review_no {α : Type} (site : Nat → List α) (loadFn : α → α)
    (st : ListState α) (n : Nat) :
    ((wpReview site loadFn st n).2).review_no = st.review_no := by
  unfold wpReview
  cases hl : st.page_html.lookup (ceilPage n) <;>
    simp only [hl] <;>
    (repeat' split) <;> rfl

theorem wpReview_plugin {α : Type} (site : Nat → List α) (loadFn : α → α)
    (st : ListState α) (n : Nat) :
    ((wpReview site loadFn st n).2).plugin = st.plugin := by
  unfold wpReview
  cases hl : st.page_html.lookup (ceilPage n) <;>
    simp only [hl] <;>
    (repeat' split) <;> rfl

theorem wpReview_consistent {α : Type} (site : Nat → List α) (loadFn : α → α)
    (st : ListState α) (n : Nat) (hc : cacheConsistent site st) :
    cacheConsistent site (wpReview site loadFn st n).2 := by
  have hpage : ((wpReview site loadFn st n).2).page_html = st.page_html ∨
      ((wpReview site loadFn st n).2).page_html =
        (ceilPage n, site (ceilPage n)) :: st.page_html := by
    unfold wpReview
    cases hl : st.page_html.lookup (ceilPage n) <;>
      simp only [hl] <;>
      (repeat' split) <;>
      first
        | (left ; rfl)
        | (right ; rfl)
  intro p l hl
  rcases hpage with h | h
  · exact hc p l (h ▸ hl)
  · rw [h] at hl
    by_cases hp : p = ceilPage n
    · subst hp
      simp [List.lookup] at hl
      exact hl.symm
    · refine hc p l ?_
      simpa [List.lookup, beq_false_of_ne hp] using hl

theorem nextReview_review_no {α : Type} (site : Nat → List α) (loadFn : α → α)
    (st : ListState α) :
    ((nextReview site loadFn st).2).review_no = st.review_no + 1 := by
  unfold nextReview
  rw [wpReview_review_no]

theorem nextReview_fst {α : Type} (site : Nat → List α) (loadFn : α → α)
    (st : ListState α) :
    (nextReview site loadFn st).1 =
      wpReviewResult (pageFor site { st with review_no := st.review_no + 1 } st.review_no)
        loadFn st.review_no := by
  unfold nextReview
  rw [wpReview_fst]

theorem nextReview_consistent {α : Type} (site : Nat → List α) (loadFn : α → α)
    (st : ListState α) (hc : cacheConsistent site st) :
    cacheConsistent site (nextReview site loadFn st).2 := by
  unfold nextReview
  exact wpReview_consistent _ _ _ _ (fun p l hl => hc p l hl)

theorem iterateCursor_review_no {α : Type} (site : Nat → List α) (loadFn : α → α)
    (st : ListState α) (n : Nat) :
    (iterateCursor site loadFn st n).review_no = st.review_no + n := by
  induction n with
  | zero => rfl
  | succ k ih =>
    show ((nextReview site loadFn (iterateCursor site loadFn st k)).2).review_no = _
    rw [nextReview_review_no, ih]
    omega

theorem iterateCursor_consistent {α : Type} (site : Nat → List α) (loadFn : α → α)
    (st : ListState α) (n : Nat) (hc : cacheConsistent site st) :
    cacheConsistent site (iterateCursor site loadFn st n) := by
  induction n with
  | zero => exact hc
  | succ k ih => exact nextReview_consistent _ _ _ ih

theorem paginate_length {α : Type} (L : List α) (q : Nat) :
    (paginate L q).length = min 30 (L.length - (q - 1) * 30) := by
  simp [paginate, WORDPRESS_REVIEWS_PER_PAGE]

/-- A cache consistent with a paginated site always consults the canonical
page content. -/
theorem pageFor_paginate {α : Type} (L : List α) (st : ListState α)
    (hc : cacheConsistent (paginate L) st) (n : Nat) :
    pageFor (paginate L) st n = paginate L (ceilPage n) := by
  unfold pageFor
  cases hl : st.page_html.lookup (ceilPage n) with
  | none => rfl
  | some l => exact hc _ _ hl

/-- ceilPage is ceil division by 30. -/
theorem ceilPage_eq (n : Nat) : ceilPage n = (n + 29) / 30 := rfl

/-- On a paginated site, _wp_review answers global index n, for n at most
the total review count, with the (n-1)-st review of the full list. -/
theorem wpReviewResult_paginate_ok {α : Type} (L : List α) (loadFn : α → α)
    (n : Nat) (h1 : 1 ≤ n) (hidx : n - 1 < L.length) :
    wpReviewResult (paginate L (ceilPage n)) loadFn n =
      .ok (loadFn (L.get ⟨n - 1, hidx⟩)) := by
  have hlen : (paginate L (ceilPage n)).length =
      min 30 (L.length - (ceilPage n - 1) * 30) := paginate_length L _
  rw [ceilPage_eq] at hlen
  have hnpos : ¬ (0 < reviewNoFor (paginate L (ceilPage n)).length n) := by
    simp only [reviewNoFor, ceilPage_eq, WORDPRESS_REVIEWS_PER_PAGE]
    rw [hlen]
    split <;> omega
  unfold wpReviewResult
  rw [if_neg hnpos]
  have hget : pyGet (paginate L (ceilPage n))
      (reviewNoFor (paginate L (ceilPage n)).length n - 1) =
      some (L.get ⟨n - 1, hidx⟩) := by
    have hneg : reviewNoFor (paginate L (ceilPage n)).length n - 1 < 0 := by
      simp only [reviewNoFor, ceilPage_eq, WORDPRESS_REVIEWS_PER_PAGE]
      rw [hlen]
      split <;> omega
    unfold pyGet
    rw [if_pos hneg]
    have hj : (0 : Int) ≤ (paginate L (ceilPage n)).length +
        (reviewNoFor (paginate L (ceilPage n)).length n - 1) := by
      simp only [reviewNoFor, ceilPage_eq, WORDPRESS_REVIEWS_PER_PAGE]
      rw [hlen]
      omega
    rw [if_pos hj]
    have hjval : ((paginate L (ceilPage n)).length +
        (reviewNoFor (paginate L (ceilPage n)).length n - 1)).toNat =
        n - 1 - ((n + 29) / 30 - 1) * 30 := by
      simp only [reviewNoFor, ceilPage_eq, WORDPRESS_REVIEWS_PER_PAGE]
      rw [hlen]
      omega
    rw [hjval]
    simp only [paginate, ceilPage_eq, WORDPRESS_REVIEWS_PER_PAGE]
    rw [List.getElem?_take_of_lt (by omega)]
    rw [List.getElem?_drop]
    have harg : ((n + 29) / 30 - 1) * 30 + (n - 1 - ((n + 29) / 30 - 1) * 30) =
        n - 1 := by
      omega
    rw [harg]
    exact List.getElem?_eq_getElem hidx
  rw [hget]

/-- On a paginated site, _wp_review raises StopIteration exactly past the
total review count. -/
theorem wpReviewResult_paginate_exhausted {α : Type} (L : List α) (loadFn : α → α)
    (n : Nat) (hn : L.length < n) :
    wpReviewResult (paginate L (ceilPage n)) loadFn n = .error .stopIteration := by
  have hlen : (paginate L (ceilPage n)).length =
      min 30 (L.length - (ceilPage n - 1) * 30) := paginate_length L _
  rw [ceilPage_eq] at hlen
  have hpos : 0 < reviewNoFor (paginate L (ceilPage n)).length n := by
    simp only [reviewNoFor, ceilPage_eq, WORDPRESS_REVIEWS_PER_PAGE]
    rw [hlen]
    split <;> omega
  unfold wpReviewResult
  rw [if_pos hpos]

/-- In-page characterization of _wp_review: when the consulted page is page
p (at most 30 entities long) and the global index is 30(p-1)+j with
1 ≤ j ≤ 30, the result is the entity at 0-based local index j-1, and
StopIteration when the page is shorter than j. -/
theorem wpReviewResult_page {α : Type} (l : List α) (loadFn : α → α) (p j : Nat)
    (hp : 1 ≤ p) (hj : 1 ≤ j) (hj30 : j ≤ 30) (hlen : l.length ≤ 30) :
    wpReviewResult l loadFn (30 * (p - 1) + j) =
      if h : j - 1 < l.length then .ok (loadFn (l.get ⟨j - 1, h⟩))
      else .error .stopIteration := by
  have hno : reviewNoFor l.length (30 * (p - 1) + j) = (j : Int) - l.length := by
    simp only [reviewNoFor, ceilPage_eq, WORDPRESS_REVIEWS_PER_PAGE]
    split <;> omega
  by_cases h : j - 1 < l.length
  · rw [dif_pos h]
    unfold wpReviewResult
    rw [hno]
    rw [if_neg (by omega)]
    unfold pyGet
    rw [if_pos (by omega)]
    rw [if_pos (by omega)]
    have hidx : ((l.length : Int) + ((j : Int) - l.length - 1)).toNat = j - 1 := by
      omega
    rw [hidx, List.getElem?_eq_getElem h]
    rfl
  · rw [dif_neg h]
    unfold wpReviewResult
    rw [hno]
    rw [if_pos (by omega)]

/-- When the consulted page is not cached, _wp_review caches it and touches
nothing else in the state. -/
theorem wpReview_snd_none {α : Type} (site : Nat → List α) (loadFn : α → α)
    (st : ListState α) (n : Nat)
    (hl : st.page_html.lookup (ceilPage n) = none) :
    (wpReview site loadFn st n).2 =
      { st with page_html := (ceilPage n, site (ceilPage n)) :: st.page_html } := by
  unfold wpReview
  simp only [hl]
  (repeat' split) <;> rfl

/-- C4: for every global index i in [1, 30] requested against a first
listing page holding exactly 30 reviews, the cursor computes page 1 and
selects (and yields, after loading) the entity at 0-based local index
i - 1 of that page. -/
theorem C4_first_page_order {α : Type} (site : Nat → List α) (loadFn : α → α)
    (plugin : String) (i : Nat) (h1 : 1 ≤ i) (h30 : i ≤ 30)
    (hfull : (site 1).length = 30) (hidx : i - 1 < (site 1).length) :
    (nextReview site loadFn
        { plugin := plugin, review_no := i, page_html := [] }).1 =
      .ok (loadFn ((site 1).get ⟨i - 1, hidx⟩)) := by
  unfold nextReview
  rw [wpReview_fst]
  have hpf : pageFor site
      { plugin := plugin, review_no := i + 1, page_html := [] } i =
      site (ceilPage i) := rfl
  have hc1 : ceilPage i = 1 := by
    rw [ceilPage_eq]
    omega
  have hres := wpReviewResult_page (site 1) loadFn 1 i (by omega) h1 h30
    (by omega)
  rw [dif_pos hidx] at hres
  simp only [show (30 * (1 - 1) + i) = i by omega] at hres
  show wpReviewResult (pageFor site
      { plugin := plugin, review_no := i + 1, page_html := [] } i) loadFn i = _
  rw [hpf, hc1, hres]

/-- C4 witness: on a concrete full first page the 7th call yields the
entity at local index 6. -/
theorem C4_first_page_order_witness :
    1 ≤ 7 ∧ 7 ≤ 30 ∧ ((fun q => if q = 1 then List.range 30 else []) 1).length = 30 ∧
    (nextReview (fun q => if q = 1 then List.range 30 else []) id
        { plugin := "akismet", review_no := 7, page_html := [] }).1 =
      .ok (id (((fun q => if q = 1 then List.range 30 else []) 1).get
        ⟨6, by decide⟩)) :=
  ⟨by decide, by decide, by decide,
    C4_first_page_order (fun q => if q = 1 then List.range 30 else []) id
      "akismet" 7 (by decide) (by decide) (by decide) (by decide)⟩

/-- C1: with every page before p holding exactly 30 reviews and the final
page p holding k < 30 reviews, the next() call at global index
30(p-1)+k yields the last review of page p, and the immediately following
call (at global index 30(p-1)+k+1) raises StopIteration, not any other
error. -/
theorem C1_last_page_boundary {α : Type} (site : Nat → List α) (loadFn : α → α)
    (plugin : String) (p k : Nat) (hp : 1 ≤ p) (hk1 : 1 ≤ k) (hk : k < 30)
    (hfullPrev : ∀ q, 1 ≤ q → q < p → (site q).length = 30)
    (hlast : (site p).length = k) (hne : site p ≠ []) :
    (nextReview site loadFn
        { plugin := plugin, review_no := 30 * (p - 1) + k, page_html := [] }).1 =
      .ok (loadFn ((site p).getLast hne)) ∧
    (nextReview site loadFn
        (nextReview site loadFn
          { plugin := plugin, review_no := 30 * (p - 1) + k,
            page_html := [] }).2).1 =
      .error .stopIteration := by
  have hc1 : ceilPage (30 * (p - 1) + k) = p := by
    rw [ceilPage_eq]
    omega
  have hc2 : ceilPage (30 * (p - 1) + k + 1) = p := by
    rw [ceilPage_eq]
    omega
  constructor
  · unfold nextReview
    rw [wpReview_fst]
    show wpReviewResult (pageFor site
        { plugin := plugin, review_no := 30 * (p - 1) + k + 1, page_html := [] }
        (30 * (p - 1) + k)) loadFn (30 * (p - 1) + k) = _
    have hpf : pageFor site
        { plugin := plugin, review_no := 30 * (p - 1) + k + 1, page_html := [] }
        (30 * (p - 1) + k) = site (ceilPage (30 * (p - 1) + k)) := rfl
    rw [hpf, hc1]
    have hres := wpReviewResult_page (site p) loadFn p k hp hk1 (by omega)
      (by omega)
    rw [dif_pos (by omega)] at hres
    rw [hres]
    have hgl : (site p).getLast hne = (site p).get ⟨k - 1, by omega⟩ := by
      simp only [List.getLast_eq_getElem, List.get_eq_getElem, hlast]
    rw [hgl]
  · have hsnd : (nextReview site loadFn
        { plugin := plugin, review_no := 30 * (p - 1) + k, page_html := [] }).2 =
        { plugin := plugin, review_no := 30 * (p - 1) + k + 1,
          page_html := [(p, site p)] } := by
      unfold nextReview
      rw [wpReview_snd_none _ _ _ _ (by rfl)]
      rw [hc1]
    rw [hsnd]
    unfold nextReview
    rw [wpReview_fst]
    show wpReviewResult (pageFor site
        { plugin := plugin, review_no := 30 * (p - 1) + k + 1 + 1,
          page_html := [(p, site p)] } (30 * (p - 1) + k + 1)) loadFn
        (30 * (p - 1) + k + 1) = _
    have hpf2 : pageFor site
        { plugin := plugin, review_no := 30 * (p - 1) + k + 1 + 1,
          page_html := [(p, site p)] } (30 * (p - 1) + k + 1) = site p := by
      unfold pageFor
      rw [hc2]
      simp [List.lookup]
    rw [hpf2]
    have hres := wpReviewResult_page (site p) loadFn p (k + 1) hp (by omega)
      (by omega) (by omega)
    rw [dif_neg (by omega)] at hres
    rw [show 30 * (p - 1) + (k + 1) = 30 * (p - 1) + k + 1 by omega] at hres
    rw [hres]

/-- C1 witness: page 1 full, page 2 holds three reviews; global index 33
yields the last review of page 2 and global index 34 raises
StopIteration. -/
theorem C1_last_page_boundary_witness :
    ((fun q => if q = 1 then List.range 30 else if q = 2 then [100, 101, 102]
      else []) 2).length = 3 ∧
    (nextReview (fun q => if q = 1 then List.range 30 else
        if q = 2 then [100, 101, 102] else []) id
      { plugin := "akismet", review_no := 30 * (2 - 1) + 3, page_html := [] }).1 =
      .ok (id (((fun q => if q = 1 then List.range 30 else
        if q = 2 then [100, 101, 102] else []) 2).getLast (by decide))) ∧
    (nextReview (fun q => if q = 1 then List.range 30 else
        if q = 2 then [100, 101, 102] else []) id
      (nextReview (fun q => if q = 1 then List.range 30 else
        if q = 2 then [100, 101, 102] else []) id
        { plugin := "akismet", review_no := 30 * (2 - 1) + 3,
          page_html := [] }).2).1 = .error .stopIteration := by
  refine ⟨by decide, ?_, ?_⟩
  · exact (C1_last_page_boundary (fun q => if q = 1 then List.range 30 else
      if q = 2 then [100, 101, 102] else []) id "akismet" 2 3 (by decide)
      (by decide) (by decide)
      (by intro q hq1 hq2; interval_cases q <;> decide)
      (by decide) (by decide)).1
  · exact (C1_last_page_boundary (fun q => if q = 1 then List.range 30 else
      if q = 2 then [100, 101, 102] else []) id "akismet" 2 3 (by decide)
      (by decide) (by decide)
      (by intro q hq1 hq2; interval_cases q <;> decide)
      (by decide) (by decide)).2

/-- A fresh cursor has a consistent (empty) cache. -/
theorem initListState_consistent {α : Type} (site : Nat → List α)
    (plugin : String) :
    cacheConsistent site (initListState (α := α) plugin) := by
  intro p l hl
  simp [initListState, List.lookup] at hl

/-- On a paginated site, the (n+1)-st next() call of a fresh cursor is the
_wp_review answer for global index n + 1. -/
theorem resultAt_paginate {α : Type} (L : List α) (loadFn : α → α)
    (plugin : String) (n : Nat) :
    resultAt (paginate L) loadFn (initListState plugin) n =
      wpReviewResult (paginate L (ceilPage (n + 1))) loadFn (n + 1) := by
  have hcons := iterateCursor_consistent (paginate L) loadFn _ n
    (initListState_consistent (paginate L) plugin)
  have hrn : (iterateCursor (paginate L) loadFn (initListState plugin) n).review_no
      = n + 1 := by
    rw [iterateCursor_review_no]
    simp [initListState]
    omega
  unfold resultAt
  rw [nextReview_fst]
  rw [pageFor_paginate L
    { plugin := (iterateCursor (paginate L) loadFn (initListState plugin) n).plugin,
      review_no :=
        (iterateCursor (paginate L) loadFn (initListState plugin) n).review_no + 1,
      page_html :=
        (iterateCursor (paginate L) loadFn (initListState plugin) n).page_html }
    (fun p l hl => hcons p l hl)]
  rw [hrn]

/-- C3: exhaustion is stable. On a site serving a finite paginated review
list, once a next() call of the cursor has raised StopIteration, every
later next() call raises StopIteration as well - it neither yields a
review again nor fails in any other way. -/
theorem C3_exhaustion_stable {α : Type} (L : List α) (loadFn : α → α)
    (plugin : String) (m mp : Nat) (hmm : m ≤ mp)
    (hm : resultAt (paginate L) loadFn (initListState plugin) m =
      .error .stopIteration) :
    resultAt (paginate L) loadFn (initListState plugin) mp =
      .error .stopIteration := by
  rw [resultAt_paginate] at hm ⊢
  by_cases hL : L.length < m + 1
  · exact wpReviewResult_paginate_exhausted L loadFn (mp + 1) (by omega)
  · rw [wpReviewResult_paginate_ok L loadFn (m + 1) (by omega) (by omega)] at hm
    cases hm

/-- C3 witness: with two reviews in total, the third call raises
StopIteration and so does the sixth. -/
theorem C3_exhaustion_stable_witness :
    2 ≤ 5 ∧
    resultAt (paginate ([10, 20] : List Nat)) id (initListState "akismet") 2 =
      .error .stopIteration ∧
    resultAt (paginate ([10, 20] : List Nat)) id (initListState "akismet") 5 =
      .error .stopIteration := by
  have h2 : resultAt (paginate ([10, 20] : List Nat)) id
      (initListState "akismet") 2 = .error .stopIteration := by rfl
  exact ⟨by omega, h2,
    C3_exhaustion_stable ([10, 20] : List Nat) id "akismet" 2 5 (by omega) h2⟩

/-- C5 counterexample: on a plugin with no reviews at all, the very first
next() call raises StopIteration, yet review_no still advances from 1 to
2 - the counter is incremented before _wp_review runs, not only on
success. -/
theorem C5_counterexample :
    (initListState (α := Nat) "akismet").review_no = 1 ∧
    (nextReview (fun _ => ([] : List Nat)) id (initListState "akismet")).1 =
      .error .stopIteration ∧
    ((nextReview (fun _ => ([] : List Nat)) id (initListState "akismet")).2).review_no
      = 2 :=
  ⟨rfl, rfl, rfl⟩

/-- C5 amended: the cursor counter review_no starts at 1 and increments by
exactly 1 on every next() call, whether the call yields a review or
raises - the increment happens before _wp_review is consulted. -/
theorem C5_next_index_increments_always {α : Type} (plugin : String)
    (site : Nat → List α) (loadFn : α → α) (st : ListState α) :
    (initListState (α := α) plugin).review_no = 1 ∧
    ((nextReview site loadFn st).2).review_no = st.review_no + 1 :=
  ⟨rfl, nextReview_review_no site loadFn st⟩

/-- A two-plugin scenario: plugin a has no reviews at all, plugin b has one
review on its first page. -/
def cexSites : String → Nat → List Nat :=
  fun p => if p = "b" then (fun q => if q = 1 then [7] else []) else fun _ => []

/-- C2 counterexample: with quota 1 and request order [a, b], plugin a
exhausts on its first next() call, and reviews() then emits nothing at all
- in particular no record of plugin b, although plugin b has a review -
because the except StopIteration clause breaks out of the outer plugin
loop. -/
theorem C2_counterexample :
    cexSites "b" 1 = [7] ∧
    reviewsRun (initWordpressReviews ["a", "b"] 1) cexSites id = ([], none) :=
  ⟨rfl, rfl⟩

/-- C2 amended: when a plugin exhausts before its quota, the run ends
there: the records emitted are the same whatever plugins follow it in the
request list (no later plugin is pulled from). -/
theorem C2_exhaustion_ends_run {α : Type} (sites : String → Nat → List α)
    (loadFn : α → α) (number : Nat) (p : String) (rest restp : List String)
    (dict : List (String × ListState α))
    (hex : (pullQuota (sites p) loadFn ((dict.lookup p).getD (initListState p))
        number).2.2 = .exhausted) :
    reviewsLoop sites loadFn number (p :: rest) dict =
      reviewsLoop sites loadFn number (p :: restp) dict := by
  unfold reviewsLoop
  simp only [hex]

/-- C2 amended witness: the run over [a, b] equals the run over [a]
alone. -/
theorem C2_exhaustion_ends_run_witness :
    (pullQuota (cexSites "a") id
        ((([] : List (String × ListState Nat)).lookup "a").getD
          (initListState "a")) 1).2.2 = .exhausted ∧
    reviewsLoop cexSites id 1 ["a", "b"] [] = reviewsLoop cexSites id 1 ["a"] [] :=
  ⟨rfl, C2_exhaustion_ends_run cexSites id 1 "a" ["b"] [] [] rfl⟩

/-- C6: field extraction of the review body is asymmetric: a document with
no div.bbp-topic-content at all makes _find_text raise AttributeError (the
find result is subscripted without a None check), while a document whose
topic-content block is present but holds no paragraph yields a null text
with no error. -/
theorem C6_text_block_asymmetry :
    (∀ soup : Html, soup.find "div" "bbp-topic-content" = none →
      find_text soup = .error .attributeError) ∧
    (∀ soup blk : Html, soup.find "div" "bbp-topic-content" = some blk →
      blk.findAllTag "p" = [] →
      find_text soup = .ok none) := by
  constructor
  · intro soup h
    unfold find_text
    rw [h]
  · intro soup blk h hp
    unfold find_text
    rw [h]
    simp only [hp]
    rfl

/-- C6 witness: a page without the block errors, a page with an empty
block gives a null text. -/
theorem C6_text_block_asymmetry_witness :
    find_text (Html.elem "html" [] [] [Html.elem "div" ["other"] [] []]) =
      .error .attributeError ∧
    find_text (Html.elem "html" [] []
      [Html.elem "div" ["bbp-topic-content"] [] [Html.text "hi"]]) = .ok none :=
  ⟨C6_text_block_asymmetry.1 _ rfl,
   C6_text_block_asymmetry.2 _ (Html.elem "div" ["bbp-topic-content"] []
     [Html.text "hi"]) rfl rfl⟩

/-- C9: the rating is the integer value of the single first character of
the title attribute of the ratings widget whenever that character is a
digit - a longer leading number is truncated to its first digit - and the
rating is null when the widget is absent. -/
theorem C9_rating_leading_digit :
    (∀ (soup w : Html) (s : String) (c : Char) (cs : List Char),
      soup.find "div" "wporg-ratings" = some w →
      w.attr? "title" = some s →
      s.toList = c :: cs →
      c.isDigit = true →
      find_rating soup = .ok (some ((c.toNat : Int) - 48))) ∧
    (∀ soup : Html, soup.find "div" "wporg-ratings" = none →
      find_rating soup = .ok none) := by
  constructor
  · intro soup w s c cs hf ht hs hc
    simp only [find_rating, hf, ht, hs, hc]
    rfl
  · intro soup h
    unfold find_rating
    rw [h]

/-- C9 witness: title "10 out of 10 stars" gives rating 1 (the first
character only), and a page without the widget gives a null rating. -/
theorem C9_rating_leading_digit_witness :
    find_rating (Html.elem "html" [] []
      [Html.elem "div" ["wporg-ratings"] [("title", "10 out of 10 stars")] []]) =
      .ok (some (((Char.toNat (Char.ofNat 49)) : Int) - 48)) ∧
    ((Char.toNat (Char.ofNat 49) : Int) - 48 = 1) ∧
    find_rating (Html.elem "html" [] [] [Html.elem "p" [] [] []]) = .ok none :=
  ⟨C9_rating_leading_digit.1 _
      (Html.elem "div" ["wporg-ratings"] [("title", "10 out of 10 stars")] [])
      "10 out of 10 stars" (Char.ofNat 49) "0 out of 10 stars".toList
      rfl rfl rfl rfl,
   by decide,
   C9_rating_leading_digit.2 _ rfl⟩

/-- C7: an unparsable date is never an error. _find_date returns null
whenever the title attribute of the permalink anchor does not match the
strptime format (the function is total, so no exception escapes), and the
per-reply dict of _find_replies includes the date key with value null when
the title of the anchor inside the reply post-date paragraph is
unparsable. -/
theorem C7_unparsable_date_null :
    (∀ soup a : Html, soup.find "a" "bbp-topic-permalink" = some a →
      strptimeWP ((a.attr? "title").getD "") = none →
      find_date soup = none) ∧
    (∀ reply pd a : Html, reply.find "p" "bbp-reply-post-date" = some pd →
      pd.findTag "a" = some a →
      strptimeWP ((a.attr? "title").getD "") = none →
      (buildComment reply).lookup "date" = some JValue.null) := by
  constructor
  · intro soup a hf hs
    simp only [find_date, hf, hs]
  · intro reply pd a hpd ha hs
    have hda : ("date" == "author") = false := rfl
    have hdc : ("date" == "comment") = false := rfl
    have hdd : ("date" == "date") = true := rfl
    cases h1 : reply.find "span" "bbp-author-name" <;>
      cases h2 : reply.find "div" "bbp-reply-content" <;>
      simp [buildComment, h1, h2, hpd, ha, hs, List.lookup, hda, hdc, hdd]

/-- C7 witness: a permalink anchor and a reply date anchor whose titles do
not match the date format give a null review date and a null reply date
entry. -/
theorem C7_unparsable_date_null_witness :
    find_date (Html.elem "html" [] []
      [Html.elem "a" ["bbp-topic-permalink"] [("title", "4 months ago")] []]) =
      none ∧
    (buildComment (Html.elem "div" ["reply"] []
      [Html.elem "p" ["bbp-reply-post-date"] []
        [Html.elem "a" [] [("title", "4 months ago")] []]])).lookup "date" =
      some JValue.null :=
  ⟨C7_unparsable_date_null.1 _
      (Html.elem "a" ["bbp-topic-permalink"] [("title", "4 months ago")] [])
      rfl (by rfl),
   C7_unparsable_date_null.2 _
      (Html.elem "p" ["bbp-reply-post-date"] []
        [Html.elem "a" [] [("title", "4 months ago")] []])
      (Html.elem "a" [] [("title", "4 months ago")] []) rfl rfl (by rfl)⟩

/-- C8: to_dict is a flat mapping with exactly the twelve review keys in
source order, each bound to the serialization of the current field value,
and on an entity whose fields are still unset (constructed without
autoload) the tags and comments keys hold empty lists, not null. -/
theorem C8_to_dict_roundtrip :
    (∀ r : WordpressReview, (to_dict r).map Prod.fst =
      ["path", "title", "date", "tags", "rating", "author", "text", "replies",
       "participants", "comments", "support", "support_comment"]) ∧
    (∀ r : WordpressReview,
      (to_dict r).lookup "path" = some (JValue.str r.path) ∧
      (to_dict r).lookup "title" = some (jOptStr r.title) ∧
      (to_dict r).lookup "date" = some (jOptStr r.date) ∧
      (to_dict r).lookup "tags" = some (jTags r.tags) ∧
      (to_dict r).lookup "rating" = some (jOptInt r.rating) ∧
      (to_dict r).lookup "author" = some (jOptStr r.author) ∧
      (to_dict r).lookup "text" = some (jOptStr r.text) ∧
      (to_dict r).lookup "replies" = some (jOptInt r.replies) ∧
      (to_dict r).lookup "participants" = some (jOptInt r.participants) ∧
      (to_dict r).lookup "comments" = some (jComments r.comments) ∧
      (to_dict r).lookup "support" = some (jOptStr r.support) ∧
      (to_dict r).lookup "support_comment" = some (jOptStr r.support_comment)) ∧
    (∀ (url : String) (page : Html) (r : WordpressReview),
      initWordpressReview url false page = .ok r →
      (to_dict r).lookup "tags" = some (JValue.list []) ∧
      (to_dict r).lookup "comments" = some (JValue.list [])) := by
  refine ⟨fun r => rfl, fun r => ?_, fun url page r hok => ?_⟩
  · exact ⟨rfl, rfl, rfl, rfl, rfl, rfl, rfl, rfl, rfl, rfl, rfl, rfl⟩
  · have hok2 : (Except.ok { path := parse_url url, loaded := none,
                             title := none, date := none, tags := some [],
                             rating := none, author := none, text := none,
                             replies := none, participants := none,
                             comments := some [], support := none,
                             support_comment := none } :
        Except PyErr WordpressReview) = .ok r := hok
    injection hok2 with h
    subst h
    exact ⟨rfl, rfl⟩

/-- An unloaded review entity with a concrete path, as the list-page
fetcher builds them. -/
def unloadedSample : WordpressReview :=
  { path := "/support/topic/x/", loaded := none, title := none, date := none,
    tags := some [], rating := none, author := none, text := none,
    replies := none, participants := none, comments := some [],
    support := none, support_comment := none }

/-- C8 witness: a concrete unloaded entity serializes its tags and
comments as empty lists. -/
theorem C8_to_dict_roundtrip_witness :
    (to_dict unloadedSample).lookup "tags" = some (JValue.list []) ∧
    (to_dict unloadedSample).lookup "comments" = some (JValue.list []) :=
  C8_to_dict_roundtrip.2.2 "https://wordpress.org/support/topic/x/"
    (Html.elem "html" [] [] []) unloadedSample (by rfl)

/-- The fields parseReview never assigns: path and loaded pass through. -/
theorem parseReview_path_loaded (r : WordpressReview) (soup : Html)
    (r1 : WordpressReview) (h : parseReview r soup = .ok r1) :
    r1.path = r.path ∧ r1.loaded = r.loaded := by
  unfold parseReview at h
  cases h1 : find_rating soup <;> rw [h1] at h <;>
    simp only [Except.bind] at h
  · cases h
  cases h2 : find_text soup <;> rw [h2] at h <;>
    simp only [Except.bind] at h
  · cases h
  cases h3 : find_replies_num soup <;> rw [h3] at h <;>
    simp only [Except.bind] at h
  · cases h
  cases h4 : find_participants_num soup <;> rw [h4] at h <;>
    simp only [Except.bind] at h
  · cases h
  injection h with h5
  subst h5
  exact ⟨rfl, rfl⟩

/-- C10: when a review is constructed with autoload, the load (fetch and
parse) runs first and the field defaults are assigned afterwards, wiping
every extracted field: if construction completes, all fields are at their
defaults regardless of the page content - only path and the loaded flag
survive. -/
theorem C10_autoload_fields_reset (url : String) (page : Html)
    (r : WordpressReview) (hok : initWordpressReview url true page = .ok r) :
    r = { path := parse_url url, loaded := some true, title := none,
          date := none, tags := some [], rating := none, author := none,
          text := none, replies := none, participants := none,
          comments := some [], support := none, support_comment := none } := by
  cases hparse : parseReview
      { path := parse_url url, loaded := none, title := none, date := none,
        tags := none, rating := none, author := none, text := none,
        replies := none, participants := none, comments := none,
        support := none, support_comment := none } page with
  | error e =>
    simp [initWordpressReview, loadReview, hparse, Except.map] at hok
  | ok r1 =>
    have hpl := parseReview_path_loaded _ _ _ hparse
    simp [initWordpressReview, loadReview, hparse, Except.map] at hok
    subst hok
    have hp : r1.path = parse_url url := hpl.1
    rw [hp]

/-- A concrete review detail page: a topic-content block with no
paragraphs and nothing else. -/
def autoloadSamplePage : Html :=
  Html.elem "html" [] [] [Html.elem "div" ["bbp-topic-content"] [] []]

/-- The entity produced by constructing a review with autoload on the
sample page. -/
def autoloadSampleResult : WordpressReview :=
  { path := "/support/topic/great-plugin/", loaded := some true,
    title := none, date := none, tags := some [], rating := none,
    author := none, text := none, replies := none, participants := none,
    comments := some [], support := none, support_comment := none }

/-- C10 witness: on the sample page, construction with autoload completes
and every field is back at its default. -/
theorem C10_autoload_fields_reset_witness :
    autoloadSampleResult =
      { path := parse_url "https://wordpress.org/support/topic/great-plugin/",
        loaded := some true, title := none, date := none, tags := some [],
        rating := none, author := none, text := none, replies := none,
        participants := none, comments := some [], support := none,
        support_comment := none } :=
  C10_autoload_fields_reset "https://wordpress.org/support/topic/great-plugin/"
    autoloadSamplePage autoloadSampleResult (by rfl)
